import Mathlib

/-!
Verification of the telemetry ingestion and live-window display core of
`robotic_hand_wireless` (`src/main.py`).

Modelling conventions:
* Raw frames are `String`s; byte decoding of the radio payload is treated as
  already done (the code calls `.decode()` on the payload first).
* Python string operations (`strip`, `split(",")`) are embedded as structural
  functions on `List Char` so every definition is kernel-executable.
* Python `float(s)` either raises `ValueError` or returns a double.  We embed
  it as a grammar acceptance test `pyFloatOk` faithful to Python's `float()`
  literal syntax (optional sign, decimal literals with underscores between
  digits, exponents, and the case-insensitive special spellings
  `inf` / `infinity` / `nan`).  A successfully parsed float is represented
  opaquely by its source text (`PyVal.pyFloat`); no claim compares floats
  obtained from distinct texts, so this identifies exactly the data flow the
  code performs.
* The two failure paths of `handle_xbee_message` (wrong field count, and the
  `except` clause catching the `ValueError` of a failed `float` conversion)
  are reified as `DecodeError.MalformedFrame` and `DecodeError.InvalidNumber`.
-/

namespace RoboticHand

/-- A Python runtime value as it can appear in the per-channel data lists:
either the `int` `0` default used by `sensor_data.get(key, 0)`, or a float,
represented opaquely by the text it was parsed from. -/
inductive PyVal where
  | pyInt (n : Int)
  | pyFloat (text : List Char)
deriving DecidableEq, Repr

/-- The two per-frame failure modes of `BackendWorker.handle_xbee_message`
(`src/main.py:42-44` wrong field count, `src/main.py:46-56` a field that
`float()` refuses). -/
inductive DecodeError where
  | MalformedFrame
  | InvalidNumber
deriving DecidableEq, Repr

/-- The decoded record: the dictionary built at `src/main.py:47-52`, with its
four fixed keys reified as fields (listed in the dict literal's order). -/
structure SensorData where
  command : PyVal
  setpoint : PyVal
  measurement1 : PyVal
  measurement2 : PyVal
deriving DecidableEq, Repr

/-- Python `str.strip()` on a list of characters: remove leading and trailing
whitespace (`src/main.py:40`). -/
def pyStrip (l : List Char) : List Char :=
  ((l.dropWhile Char.isWhitespace).reverse.dropWhile Char.isWhitespace).reverse

/-- Python `str.split(",")` (`src/main.py:41`): split on every comma, keeping
empty pieces; the empty string yields `[[]]`. -/
def splitComma : List Char → List (List Char)
  | [] => [[]]
  | c :: rest =>
    let r := splitComma rest
    if c = ',' then [] :: r
    else
      match r with
      | h :: t => (c :: h) :: t
      | [] => [[c]]

/-- Consume a maximal run of decimal digits, where a single underscore may
stand strictly between two digits (Python numeric-literal grouping); returns
the unconsumed suffix. -/
def munchRest : List Char → List Char
  | [] => []
  | [c] => if c.isDigit then [] else [c]
  | c1 :: c2 :: rest =>
    if c1.isDigit then munchRest (c2 :: rest)
    else if c1 = '_' && c2.isDigit then munchRest rest
    else c1 :: c2 :: rest

/-- Consume a digit group (at least one leading digit, then `munchRest`);
`none` if the input does not start with a digit. -/
def munchGroup : List Char → Option (List Char)
  | [] => none
  | c :: rest => if c.isDigit then some (munchRest rest) else none

/-- Accept an exponent part `('e'|'E') ['+'|'-'] digits` that must consume the
whole remaining input. -/
def expOk : List Char → Bool
  | [] => false
  | c :: rest =>
    if c = 'e' || c = 'E' then
      let rest2 :=
        match rest with
        | s :: r2 => if s = '+' || s = '-' then r2 else rest
        | [] => rest
      match munchGroup rest2 with
      | some [] => true
      | _ => false
    else false

/-- After an integer part: optionally a fraction `.[digits]`, optionally an
exponent, and nothing else. -/
def fracExpOk : List Char → Bool
  | [] => true
  | c :: rest =>
    if c = '.' then
      match munchGroup rest with
      | some rest2 => rest2 = [] || expOk rest2
      | none => rest = [] || expOk rest
    else expOk (c :: rest)

/-- Accept an unsigned Python float literal: `digits[.digits][exp]` or
`.digits[exp]`. -/
def pyNumOk (l : List Char) : Bool :=
  match munchGroup l with
  | some rest => fracExpOk rest
  | none =>
    match l with
    | c :: rest =>
      if c = '.' then
        match munchGroup rest with
        | some rest2 => rest2 = [] || expOk rest2
        | none => false
      else false
    | [] => false

/-- Whether Python `float(field)` succeeds on this field: strip whitespace,
allow one sign, then either a case-insensitive special spelling
(`inf`, `infinity`, `nan`) or a decimal literal.  Note Python's `float()`
accepts the non-finite spellings. -/
def pyFloatOk (field : List Char) : Bool :=
  let t := pyStrip field
  let t2 :=
    match t with
    | c :: rest => if c = '+' || c = '-' then rest else c :: rest
    | [] => []
  let lower := t2.map Char.toLower
  if lower = "inf".toList || lower = "infinity".toList || lower = "nan".toList then
    true
  else
    pyNumOk t2

/-- `float(part)` as used at `src/main.py:48-51`: the parsed value (kept as
its source text) when the literal is accepted, `none` when `float` raises. -/
def pyFloatVal (field : List Char) : Option PyVal :=
  if pyFloatOk field then some (PyVal.pyFloat field) else none

/-- `BackendWorker.handle_xbee_message` (`src/main.py:36-56`): strip the
frame, split on commas, require exactly 4 fields, convert each field with
`float` (the dict literal evaluates `parts[1]` for `command` first, then
`parts[0]` for `setpoint`, then `parts[2]`, `parts[3]`), and return the
sensor-data record; a failed conversion lands in the `except` clause. -/
def handle_xbee_message (raw : String) : Except DecodeError SensorData :=
  match splitComma (pyStrip raw.toList) with
  | [p0, p1, p2, p3] =>
    match pyFloatVal p1, pyFloatVal p0, pyFloatVal p2, pyFloatVal p3 with
    | some c, some s, some m1, some m2 =>
      Except.ok { command := c, setpoint := s, measurement1 := m1, measurement2 := m2 }
    | _, _, _, _ => Except.error DecodeError.InvalidNumber
  | _ => Except.error DecodeError.MalformedFrame

/-- The emitted sensor-data dictionary (`src/main.py:47-54`), in the literal's
key order. -/
def sensorToDict (d : SensorData) : List (String × PyVal) :=
  [("command", d.command), ("setpoint", d.setpoint),
   ("measurement1", d.measurement1), ("measurement2", d.measurement2)]

/-- Python `dict.get(key, default)` on an association list (Python dict keys
are unique, so first-match lookup is faithful). -/
def dictGet (d : List (String × PyVal)) (k : String) (v0 : PyVal) : PyVal :=
  match d with
  | [] => v0
  | (k2, v) :: rest => if k2 = k then v else dictGet rest k v0

/-- The `self.data` dictionary of `LiveGraphWindow` (`src/main.py:74-79`):
one unbounded Python list per channel, in the literal's key order. -/
structure DataStore where
  command : List PyVal
  setpoint : List PyVal
  measurement1 : List PyVal
  measurement2 : List PyVal
deriving DecidableEq, Repr

/-- The initial store: four empty lists (`src/main.py:74-79`). -/
def initData : DataStore := ⟨[], [], [], []⟩

/-- `LiveGraphWindow.update_data` (`src/main.py:103-107`): for each of the
four keys, append `sensor_data.get(key, 0)` to that channel's list. -/
def update_data (st : DataStore) (sensor_data : List (String × PyVal)) : DataStore :=
  { command := st.command ++ [dictGet sensor_data "command" (PyVal.pyInt 0)],
    setpoint := st.setpoint ++ [dictGet sensor_data "setpoint" (PyVal.pyInt 0)],
    measurement1 := st.measurement1 ++ [dictGet sensor_data "measurement1" (PyVal.pyInt 0)],
    measurement2 := st.measurement2 ++ [dictGet sensor_data "measurement2" (PyVal.pyInt 0)] }

/-- Python `full_data[-n:]` for a nonnegative `n` (`src/main.py:115`):
`l[-0:]` is the whole list, otherwise the last `n` elements. -/
def pySliceLast (n : Nat) (l : List α) : List α :=
  if n = 0 then l else l.drop (l.length - n)

/-- The `y` computed per channel by `LiveGraphWindow.update_plot`
(`src/main.py:114-118`): the last `window_size` points when the list has at
least that many, otherwise the whole list. -/
def displaySlice (window_size : Nat) (full_data : List α) : List α :=
  if window_size ≤ full_data.length then pySliceLast window_size full_data
  else full_data

/-- One channel of `LiveGraphWindow.update_plot` (`src/main.py:109-122`):
the pair `(x, y)` handed to `curve.setData`, with
`x = range(x_start, x_start + len(y))` and `x_start = len(full_data) - len(y)`. -/
def update_plot_channel (window_size : Nat) (full_data : List α) : List Nat × List α :=
  (List.range' (full_data.length - (displaySlice window_size full_data).length)
      (displaySlice window_size full_data).length,
   displaySlice window_size full_data)

/-- The state of `LiveGraphWindow` relevant to the pipeline: the fixed
`window_size` and the data store (`src/main.py:69-79`). -/
structure LiveGraphWindow where
  window_size : Nat
  data : DataStore
deriving DecidableEq, Repr

/-- `LiveGraphWindow.__init__` (`src/main.py:69-79`): `window_size = 100`,
empty lists. -/
def LiveGraphWindow.init : LiveGraphWindow := ⟨100, initData⟩

/-- `LiveGraphWindow.update_plot` (`src/main.py:109-122`): the `(x, y)` pair
per channel key, in the iteration order of `self.curves`. -/
def update_plot (w : LiveGraphWindow) : List (String × (List Nat × List PyVal)) :=
  [("command", update_plot_channel w.window_size w.data.command),
   ("setpoint", update_plot_channel w.window_size w.data.setpoint),
   ("measurement1", update_plot_channel w.window_size w.data.measurement1),
   ("measurement2", update_plot_channel w.window_size w.data.measurement2)]

/-- Outcome of feeding a sequence of frames through the pipeline.
Modelled from the spec: the `successCount` / `failureCount` metrics of
IngestionPipeline (spec §4.4) are not explicit variables in `src/main.py`;
they count, respectively, the frames taking the success path (signal emitted
at `src/main.py:54`, delivered to `update_data`) and the frames taking either
failure path (the diagnostics printed at `src/main.py:43` and
`src/main.py:56`).  The store evolution itself is exactly the source's
`handle_xbee_message` → `update_data` chain. -/
structure PipelineResult where
  store : DataStore
  successCount : Nat
  failureCount : Nat
deriving DecidableEq, Repr

/-- Process one raw frame end to end: decode; on success append the emitted
dictionary to every channel; on a decode failure leave the store unchanged
and continue (`src/main.py:36-56`, `src/main.py:103-107`). -/
def processFrame (r : PipelineResult) (raw : String) : PipelineResult :=
  match handle_xbee_message raw with
  | Except.ok d =>
    { store := update_data r.store (sensorToDict d),
      successCount := r.successCount + 1,
      failureCount := r.failureCount }
  | Except.error _ =>
    { store := r.store,
      successCount := r.successCount,
      failureCount := r.failureCount + 1 }

/-- Run the ingestion pipeline on a list of frames starting from the empty
store. -/
def runPipeline (frames : List String) : PipelineResult :=
  frames.foldl processFrame ⟨initData, 0, 0⟩

/-! ## Helper lemmas -/

theorem handle_split4 (raw : String) (p0 p1 p2 p3 : List Char)
    (hsplit : splitComma (pyStrip raw.toList) = [p0, p1, p2, p3]) :
    handle_xbee_message raw =
      match pyFloatVal p1, pyFloatVal p0, pyFloatVal p2, pyFloatVal p3 with
      | some c, some s, some m1, some m2 =>
        Except.ok { command := c, setpoint := s, measurement1 := m1, measurement2 := m2 }
      | _, _, _, _ => Except.error DecodeError.InvalidNumber := by
  unfold handle_xbee_message
  rw [hsplit]

theorem update_data_channel_lengths (st : DataStore) (d : List (String × PyVal)) :
    (update_data st d).command.length = st.command.length + 1 ∧
    (update_data st d).setpoint.length = st.setpoint.length + 1 ∧
    (update_data st d).measurement1.length = st.measurement1.length + 1 ∧
    (update_data st d).measurement2.length = st.measurement2.length + 1 := by
  simp [update_data]

theorem foldl_update_data_lengths (ds : List (List (String × PyVal))) (st : DataStore) :
    (ds.foldl update_data st).command.length = st.command.length + ds.length ∧
    (ds.foldl update_data st).setpoint.length = st.setpoint.length + ds.length ∧
    (ds.foldl update_data st).measurement1.length = st.measurement1.length + ds.length ∧
    (ds.foldl update_data st).measurement2.length = st.measurement2.length + ds.length := by
  induction ds generalizing st with
  | nil => simp
  | cons d rest ih =>
    have h := ih (update_data st d)
    have h2 := update_data_channel_lengths st d
    simp only [List.foldl_cons, List.length_cons] at h ⊢
    omega

theorem displaySlice_length {α : Type} (N : Nat) (hN : 1 ≤ N) (l : List α) :
    (displaySlice N l).length = min l.length N := by
  unfold displaySlice pySliceLast
  by_cases h : N ≤ l.length
  · simp only [h, if_true]
    have hN0 : ¬ N = 0 := by omega
    simp only [hN0, if_false, List.length_drop]
    omega
  · simp only [h, if_false]
    omega

theorem displaySlice_length_le {α : Type} (N : Nat) (l : List α) :
    (displaySlice N l).length ≤ l.length := by
  unfold displaySlice pySliceLast
  by_cases h : N ≤ l.length
  · simp only [h, if_true]
    by_cases h0 : N = 0
    · simp [h0]
    · simp only [h0, if_false, List.length_drop]
      omega
  · simp [h]

theorem displaySlice_length_pos {α : Type} (N : Nat) (l : List α) (hl : l ≠ []) :
    1 ≤ (displaySlice N l).length := by
  have hlen : 1 ≤ l.length := by
    cases l with
    | nil => exact absurd rfl hl
    | cons a t => simp
  unfold displaySlice pySliceLast
  by_cases h : N ≤ l.length
  · simp only [h, if_true]
    by_cases h0 : N = 0
    · simpa [h0]
    · simp only [h0, if_false, List.length_drop]
      omega
  · simpa [h]

/-! ## Claim theorems -/

/-- C1: whenever the stripped frame splits on commas into exactly 4 fields,
each accepted by `float`, the decoder returns a record taking `setpoint` from
field 1, `command` from field 2, `measurement1` from field 3 and
`measurement2` from field 4 — the positional wire mapping, independent of the
order in which the record is constructed internally. -/
theorem decode_positional_mapping (raw : String) (p0 p1 p2 p3 : List Char)
    (hsplit : splitComma (pyStrip raw.toList) = [p0, p1, p2, p3])
    (h0 : pyFloatOk p0 = true) (h1 : pyFloatOk p1 = true)
    (h2 : pyFloatOk p2 = true) (h3 : pyFloatOk p3 = true) :
    handle_xbee_message raw =
      Except.ok { command := PyVal.pyFloat p1, setpoint := PyVal.pyFloat p0,
                  measurement1 := PyVal.pyFloat p2, measurement2 := PyVal.pyFloat p3 } := by
  rw [handle_split4 raw p0 p1 p2 p3 hsplit]
  simp [pyFloatVal, h0, h1, h2, h3]

/-- Witness for C1 at the concrete frame `"1,2,3,4"`. -/
theorem decode_positional_mapping_spot :
    splitComma (pyStrip "1,2,3,4".toList) =
      ["1".toList, "2".toList, "3".toList, "4".toList] ∧
    handle_xbee_message "1,2,3,4" =
      Except.ok { command := PyVal.pyFloat "2".toList, setpoint := PyVal.pyFloat "1".toList,
                  measurement1 := PyVal.pyFloat "3".toList,
                  measurement2 := PyVal.pyFloat "4".toList } :=
  ⟨by decide,
   decode_positional_mapping "1,2,3,4" "1".toList "2".toList "3".toList "4".toList
     (by decide) (by decide) (by decide) (by decide) (by decide)⟩

/-- C3 counterexample: the claim asserts that fields spelling NaN are rejected
and no record is produced, but Python's `float("nan")` succeeds, so the
decoder accepts the frame `"1,2,nan,4"` and produces a record carrying the
NaN value in `measurement1`. -/
theorem decode_accepts_nan :
    handle_xbee_message "1,2,nan,4" =
      Except.ok { command := PyVal.pyFloat "2".toList, setpoint := PyVal.pyFloat "1".toList,
                  measurement1 := PyVal.pyFloat "nan".toList,
                  measurement2 := PyVal.pyFloat "4".toList } := by
  rfl

/-- C3 amended: on a frame whose stripped text splits into exactly 4 fields,
the decoder fails with `InvalidNumber` exactly when some field is not
accepted by Python `float` — whose grammar does accept the NaN/Infinity
spellings, so those produce a record rather than an error. -/
theorem decode_invalid_number (raw : String) (p0 p1 p2 p3 : List Char)
    (hsplit : splitComma (pyStrip raw.toList) = [p0, p1, p2, p3]) :
    handle_xbee_message raw = Except.error DecodeError.InvalidNumber ↔
      ¬ (pyFloatOk p0 = true ∧ pyFloatOk p1 = true ∧
         pyFloatOk p2 = true ∧ pyFloatOk p3 = true) := by
  rw [handle_split4 raw p0 p1 p2 p3 hsplit]
  by_cases h0 : pyFloatOk p0 = true <;> by_cases h1 : pyFloatOk p1 = true <;>
    by_cases h2 : pyFloatOk p2 = true <;> by_cases h3 : pyFloatOk p3 = true <;>
    simp [pyFloatVal, h0, h1, h2, h3]

/-- Witness for C3's amended theorem at the spec's own example `"1,2,x,4"`:
the third field is not a float literal, so decoding fails with
`InvalidNumber`. -/
theorem decode_invalid_number_spot :
    splitComma (pyStrip "1,2,x,4".toList) =
      ["1".toList, "2".toList, "x".toList, "4".toList] ∧
    handle_xbee_message "1,2,x,4" = Except.error DecodeError.InvalidNumber :=
  ⟨by decide,

   (decode_invalid_number "1,2,x,4" "1".toList "2".toList "x".toList "4".toList
      (by decide)).mpr (by decide)⟩

/-- C8: the decoder fails with `MalformedFrame` exactly when splitting the
stripped frame on commas yields a field count other than 4; in particular
both `"1,2,3"` and `"1,2,3,4,5"` fail that way and produce no record. -/
theorem malformed_frame_iff_field_count :
    (∀ raw : String,
      handle_xbee_message raw = Except.error DecodeError.MalformedFrame ↔
        (splitComma (pyStrip raw.toList)).length ≠ 4) ∧
    handle_xbee_message "1,2,3" = Except.error DecodeError.MalformedFrame ∧
    handle_xbee_message "1,2,3,4,5" = Except.error DecodeError.MalformedFrame := by
  refine ⟨fun raw => ?_, by rfl, by rfl⟩
  unfold handle_xbee_message
  rcases h : splitComma (pyStrip raw.toList) with _ | ⟨a, _ | ⟨b, _ | ⟨c, _ | ⟨d, _ | ⟨e, t⟩⟩⟩⟩⟩
  · exact iff_of_true rfl (by simp only [List.length_nil]; omega)
  · exact iff_of_true rfl (by simp only [List.length_cons, List.length_nil]; omega)
  · exact iff_of_true rfl (by simp only [List.length_cons, List.length_nil]; omega)
  · exact iff_of_true rfl (by simp only [List.length_cons, List.length_nil]; omega)
  · rcases hv1 : pyFloatVal b with _ | v1 <;> rcases hv0 : pyFloatVal a with _ | v0 <;>
      rcases hv2 : pyFloatVal c with _ | v2 <;> rcases hv3 : pyFloatVal d with _ | v3 <;>
      simp [hv1, hv0, hv2, hv3]
  · exact iff_of_true rfl (by simp only [List.length_cons, List.length_nil]; omega)

/-- C2 counterexample: the code keeps every received value in the backing
list (`self.data[key]` is never truncated), so after 101 appends with the
source's `window_size = 100` the store holds 101 values, refuting
`storedCount = min(totalReceived, windowSize)`. -/
theorem window_store_exceeds_window_size :
    ((List.replicate 101 ([] : List (String × PyVal))).foldl update_data initData).command.length
      = 101 ∧
    ¬ (101 = min 101 LiveGraphWindow.init.window_size) := by
  constructor
  · have h :=
      (foldl_update_data_lengths (List.replicate 101 ([] : List (String × PyVal))) initData).1
    simpa [initData] using h
  · decide

/-- C2 amended: the backing list of each channel holds all received values
(`storedCount = totalReceived`, unbounded); it is only the display slice
computed by `update_plot` that is bounded, holding
`min(totalReceived, windowSize)` most-recent values. -/
theorem window_store_unbounded_display_bounded (ds : List (List (String × PyVal))) :
    ((ds.foldl update_data initData).command.length = ds.length ∧
     (ds.foldl update_data initData).setpoint.length = ds.length ∧
     (ds.foldl update_data initData).measurement1.length = ds.length ∧
     (ds.foldl update_data initData).measurement2.length = ds.length) ∧
    (displaySlice LiveGraphWindow.init.window_size
        (ds.foldl update_data initData).command).length =
      min ds.length LiveGraphWindow.init.window_size := by
  have h := foldl_update_data_lengths ds initData
  have hc : (ds.foldl update_data initData).command.length = ds.length := by
    simpa [initData] using h.1
  refine ⟨⟨hc, ?_, ?_, ?_⟩, ?_⟩
  · simpa [initData] using h.2.1
  · simpa [initData] using h.2.2.1
  · simpa [initData] using h.2.2.2
  · rw [displaySlice_length LiveGraphWindow.init.window_size (by decide), hc]

/-- C4: for every `windowSize ≥ 1` and every list of appended values, the
display slice has exactly `min(K, N)` points, and when `K ≥ N` it equals the
last `N` appended values in order. -/
theorem snapshot_window_capacity {α : Type} (N : Nat) (l : List α) (hN : 1 ≤ N) :
    (update_plot_channel N l).2.length = min l.length N ∧
    (N ≤ l.length → (update_plot_channel N l).2 = l.drop (l.length - N)) := by
  constructor
  · exact displaySlice_length N hN l
  · intro h
    show displaySlice N l = l.drop (l.length - N)
    unfold displaySlice pySliceLast
    have hN0 : ¬ N = 0 := by omega
    simp [h, hN0]

/-- Witness for C4: the spec's tiny-window scenario — `windowSize = 2`,
appends `1, 2, 3`, snapshot `xs = [1, 2]`, `ys = [2, 3]`. -/
theorem snapshot_window_capacity_spot :
    ((update_plot_channel 2 ([1, 2, 3] : List Nat)).2.length =
        min ([1, 2, 3] : List Nat).length 2 ∧
     (2 ≤ ([1, 2, 3] : List Nat).length →
        (update_plot_channel 2 ([1, 2, 3] : List Nat)).2 =
          ([1, 2, 3] : List Nat).drop (([1, 2, 3] : List Nat).length - 2))) ∧
    update_plot_channel 2 ([1, 2, 3] : List Nat) = ([1, 2], [2, 3]) :=
  ⟨snapshot_window_capacity 2 [1, 2, 3] (by decide), by decide⟩

/-- C5: in every channel snapshot `xs` and `ys` have equal length, `xs`
increases by exactly 1 at each step, and its last element is
`totalReceived - 1`, the arrival index of the newest sample. -/
theorem snapshot_index_alignment {α : Type} (ws : Nat) (l : List α) :
    (update_plot_channel ws l).1.length = (update_plot_channel ws l).2.length ∧
    (∀ i : Nat, i + 1 < (update_plot_channel ws l).1.length →
      (update_plot_channel ws l).1.getD (i + 1) 0 =
        (update_plot_channel ws l).1.getD i 0 + 1) ∧
    (l ≠ [] → (update_plot_channel ws l).1.getLast? = some (l.length - 1)) := by
  have hle := displaySlice_length_le ws l
  refine ⟨?_, ?_, ?_⟩
  · show (List.range' _ _).length = _
    rw [List.length_range']
    rfl
  · intro i hi
    have hi2 : i + 1 < (displaySlice ws l).length := by
      simpa [update_plot_channel, List.length_range'] using hi
    show (List.range' (l.length - (displaySlice ws l).length)
        (displaySlice ws l).length).getD (i + 1) 0 = (List.range' (l.length - (displaySlice ws l).length)
        (displaySlice ws l).length).getD i 0 + 1
    rw [List.getD_eq_getElem?_getD, List.getD_eq_getElem?_getD,
        List.getElem?_range' _ _ hi2, List.getElem?_range' _ _ (by omega)]
    simp only [Option.getD_some]
    omega
  · intro hl
    have hpos := displaySlice_length_pos ws l hl
    show (List.range' (l.length - (displaySlice ws l).length)
        (displaySlice ws l).length).getLast? = some (l.length - 1)
    rw [List.getLast?_eq_getElem?, List.length_range',
        List.getElem?_range' _ _ (by omega)]
    congr 1
    omega

/-- Witness for C5 at `windowSize = 3` over the four appended values
`10, 20, 30, 40`. -/
theorem snapshot_index_alignment_spot :
    (update_plot_channel 3 ([10, 20, 30, 40] : List Nat)).1.length =
      (update_plot_channel 3 ([10, 20, 30, 40] : List Nat)).2.length ∧
    (update_plot_channel 3 ([10, 20, 30, 40] : List Nat)).1.getD 1 0 =
      (update_plot_channel 3 ([10, 20, 30, 40] : List Nat)).1.getD 0 0 + 1 ∧
    (update_plot_channel 3 ([10, 20, 30, 40] : List Nat)).1.getLast? =
      some (([10, 20, 30, 40] : List Nat).length - 1) :=
  ⟨(snapshot_index_alignment 3 ([10, 20, 30, 40] : List Nat)).1,
   (snapshot_index_alignment 3 ([10, 20, 30, 40] : List Nat)).2.1 0 (by decide),
   (snapshot_index_alignment 3 ([10, 20, 30, 40] : List Nat)).2.2 (by decide)⟩

/-- C6: after any sequence of `M` appended records (each delivered dictionary
appends one value to every channel), all four channels hold exactly `M`
values — the per-record append is all-or-nothing across channels, so the
`totalReceived` counters stay equal. -/
theorem append_record_atomic_counts (ds : List (List (String × PyVal))) :
    (ds.foldl update_data initData).command.length = ds.length ∧
    (ds.foldl update_data initData).setpoint.length = ds.length ∧
    (ds.foldl update_data initData).measurement1.length = ds.length ∧
    (ds.foldl update_data initData).measurement2.length = ds.length := by
  have h := foldl_update_data_lengths ds initData
  refine ⟨?_, ?_, ?_, ?_⟩
  · simpa [initData] using h.1
  · simpa [initData] using h.2.1
  · simpa [initData] using h.2.2.1
  · simpa [initData] using h.2.2.2

/-- C7: feeding `["1,2,3,4", "bad", "5,6,7,8"]` through the pipeline gives
exactly 2 successful appends and 1 counted failure; the malformed frame is
dropped without stopping ingestion and the store holds the two valid records
in arrival order. -/
theorem pipeline_resilience :
    runPipeline ["1,2,3,4", "bad", "5,6,7,8"] =
      { store := { command := [PyVal.pyFloat "2".toList, PyVal.pyFloat "6".toList],
                   setpoint := [PyVal.pyFloat "1".toList, PyVal.pyFloat "5".toList],
                   measurement1 := [PyVal.pyFloat "3".toList, PyVal.pyFloat "7".toList],
                   measurement2 := [PyVal.pyFloat "4".toList, PyVal.pyFloat "8".toList] },
        successCount := 2, failureCount := 1 } := by
  rfl

/-- C9: reading the plot state before any record has arrived yields empty
`xs`/`ys` for every one of the four channels, and is not an error. -/
theorem empty_read_all_channels :
    update_plot LiveGraphWindow.init =
      [("command", ([], [])), ("setpoint", ([], [])),
       ("measurement1", ([], [])), ("measurement2", ([], []))] := by
  rfl

/-- C10: for every incoming dictionary — including ones missing some or all
of the four channel keys — `update_data` appends exactly one element to every
channel list, substituting the integer `0` for any absent key. -/
theorem update_data_appends_one_each (st : DataStore) (d : List (String × PyVal)) :
    (update_data st d).command.length = st.command.length + 1 ∧
    (update_data st d).setpoint.length = st.setpoint.length + 1 ∧
    (update_data st d).measurement1.length = st.measurement1.length + 1 ∧
    (update_data st d).measurement2.length = st.measurement2.length + 1 ∧
    (update_data st d).command.getLast? = some (dictGet d "command" (PyVal.pyInt 0)) ∧
    (update_data st d).setpoint.getLast? = some (dictGet d "setpoint" (PyVal.pyInt 0)) ∧
    (update_data st d).measurement1.getLast? =
      some (dictGet d "measurement1" (PyVal.pyInt 0)) ∧
    (update_data st d).measurement2.getLast? =
      some (dictGet d "measurement2" (PyVal.pyInt 0)) := by
  simp [update_data, List.getLast?_concat]

end RoboticHand
